import Mathlib

/-!
Verification of the Editor repository's mesh asset handler
(`src/renderer/editor/components/assets-browser/files/handlers/mesh.tsx`)
and console panel (`src/renderer/editor/components/console.tsx`).

The TypeScript code is shallowly embedded: mutation of engine objects
becomes explicit state passing, the filesystem and editor side effects are
threaded through a `World` record, `Tools.RandomId` becomes an injected
fresh-id supply, and external engine operations (material serialization,
mime-type lookup) are injected as abstract functions.
-/

namespace EditorProof

/-! ## Path helpers (node `path` module, POSIX flavour, as used by the handler) -/

/-- Splits a character list on the path separator. -/
def splitOnSlashAux : List Char → List Char → List (List Char)
  | [], acc => [acc.reverse]
  | c :: rest, acc =>
    if c == '/' then acc.reverse :: splitOnSlashAux rest []
    else splitOnSlashAux rest (c :: acc)

/-- The `/`-separated components of a path. -/
def pathParts (p : String) : List String :=
  (splitOnSlashAux p.data []).map String.mk

/-- Modelled from node's `path.basename`: the last non-empty component of the
path. -/
def basename (p : String) : String :=
  ((pathParts p).filter (fun s => !s.data.isEmpty)).getLastD ""

/-- Modelled from node's `path.dirname`: everything before the last
separator, `.` when there is no separator, `/` for top-level paths. -/
def dirname (p : String) : String :=
  let parts := pathParts p
  if parts.length ≤ 1 then "."
  else if parts.dropLast = [""] then "/"
  else String.intercalate "/" parts.dropLast

/-- Whether a string ends with the path separator. -/
def strEndsWithSlash (s : String) : Bool :=
  match s.data.getLast? with
  | some c => c == '/'
  | none => false

/-- Modelled from node's `path.join` restricted to two segments, as used by
the handler (no `..` or duplicated separators occur in its inputs). -/
def joinPath (a b : String) : String :=
  if a.data.isEmpty then b
  else if strEndsWithSlash a then a ++ b
  else a ++ "/" ++ b

/-! ## The `filenamify` npm package

Modelled from the `filenamify` package (v4 line, the editor's dependency;
it is a third-party library, not part of this repository's sources), with
its default replacement `!` and default maximum length 100: reserved
filename characters and control characters are replaced by `!`, a leading
run of periods is replaced by `!`, trailing periods are dropped, runs of
`!` are collapsed and outer `!` stripped, Windows reserved device names get
a trailing `!`, and the result is truncated to 100 characters. -/

/-- Characters matched by `filename-reserved-regex`. -/
def isFilenameReservedChar (c : Char) : Bool :=
  c == '<' || c == '>' || c == ':' || c == '"' || c == '/' || c == '\\' ||
  c == '|' || c == '?' || c == '*' || c.toNat ≤ 31

/-- Control characters `U+0000`-`U+001F` and `U+0080`-`U+009F`. -/
def isControlCharFn (c : Char) : Bool :=
  c.toNat ≤ 31 || (128 ≤ c.toNat && c.toNat ≤ 159)

/-- Replaces every character satisfying `p` with `!`. -/
def replaceWithBang (p : Char → Bool) (l : List Char) : List Char :=
  l.map (fun c => if p c then '!' else c)

/-- Replaces a leading run of periods (the `/^\.+/` match) with one `!`. -/
def replaceLeadingPeriods : List Char → List Char
  | '.' :: rest => '!' :: rest.dropWhile (fun c => c == '.')
  | l => l

/-- Drops a trailing run of periods (the `/\.+$/` match). -/
def dropTrailingPeriods (l : List Char) : List Char :=
  (l.reverse.dropWhile (fun c => c == '.')).reverse

/-- `trim-repeated`: collapses runs of `!` into a single `!`. The flag
records whether the previous kept character was `!`. -/
def collapseBang : Bool → List Char → List Char
  | _, [] => []
  | prevBang, c :: rest =>
    if c == '!' then
      if prevBang then collapseBang true rest
      else '!' :: collapseBang true rest
    else c :: collapseBang false rest

/-- `strip-outer`: removes one leading and one trailing `!`. -/
def stripOuterBang (l : List Char) : List Char :=
  let l1 := match l with
    | '!' :: rest => rest
    | other => other
  match l1.getLast? with
  | some '!' => l1.dropLast
  | _ => l1

/-- Lower-cased character list of a string. -/
def lowerChars (s : String) : List Char :=
  s.data.map Char.toLower

/-- The Windows reserved device names guarded by `filenamify`. -/
def isWindowsReservedName (s : String) : Bool :=
  match lowerChars s with
  | ['c', 'o', 'n'] => true
  | ['p', 'r', 'n'] => true
  | ['a', 'u', 'x'] => true
  | ['n', 'u', 'l'] => true
  | ['c', 'o', 'm', d] => d.isDigit
  | ['l', 'p', 't', d] => d.isDigit
  | _ => false

/-- The `filenamify` sanitizer with default options. -/
def filenamify (s : String) : String :=
  let l := replaceWithBang isFilenameReservedChar s.data
  let l := replaceWithBang isControlCharFn l
  let l := replaceLeadingPeriods l
  let l := dropTrailingPeriods l
  let l := collapseBang false l
  let l := if 1 < l.length then stripOuterBang l else l
  let s2 := String.mk l
  let s3 := if isWindowsReservedName s2 then s2 ++ "!" else s2
  String.mk (s3.data.take 100)

/-! ## Data model of the handler's entities

Fields the handler never touches are collapsed into an opaque `rest`
field; fields it reads or writes are explicit. JS `metadata` objects that
may be `null`/`undefined` are `Option` values, and `metadata ??= {}`
becomes `Option.getD` with the empty-metadata default. -/

/-- The `originalSourceFile` record written into metadata. -/
structure SourceFileRef where
  id : Option String
  name : Option String
  sceneFileName : String
deriving DecidableEq

/-- Material metadata fields used by the handler; `rest` stands for any
other metadata keys, which JS property assignment leaves intact. -/
structure MaterialMetadata where
  editorDone : Bool
  editorPath : Option String
  originalSourceFile : Option SourceFileRef
  rest : String
deriving DecidableEq

/-- The freshly created (empty) material metadata object. -/
def dMatMeta : MaterialMetadata := ⟨false, none, none, ""⟩

/-- Texture metadata fields used by the handler. -/
structure TexMetadata where
  editorDone : Bool
  rest : String
deriving DecidableEq

/-- The freshly created (empty) texture metadata object. -/
def dTexMeta : TexMetadata := ⟨false, ""⟩

/-- A texture as seen by `_configureMaterialTextures`: `isTextureOrCube`
captures the `instanceof Texture || instanceof CubeTexture` test and
`mimeType` the private `_mimeType` field. -/
structure TextureObj where
  name : String
  url : Option String
  metadata : Option TexMetadata
  mimeType : Option String
  isRenderTarget : Bool
  isTextureOrCube : Bool
  rest : String
deriving DecidableEq

/-- A material; `textures` is the result of `getActiveTextures()`. -/
structure MaterialObj where
  id : Option String
  name : Option String
  metadata : Option MaterialMetadata
  textures : List TextureObj
  rest : String
deriving DecidableEq

/-- A top-level material as passed to `_configureMaterial`: `isMulti`
captures `instanceof MultiMaterial`, with its (possibly null) sub
materials. The code never nests multi materials, so one level suffices. -/
structure TopMaterial where
  base : MaterialObj
  isMulti : Bool
  subMaterials : List (Option MaterialObj)
deriving DecidableEq

/-- Side effects the handler requests from the editor and tools. -/
inductive EditorEffect where
  | texturesToFiles (dir : String)
  | assetsBrowserRefresh
  | graphRefresh
  | assetsRefresh
deriving DecidableEq

/-- One `writeJSON` call: target path, serialized payload and the options
passed (`spaces`, `encoding`). -/
structure FileWrite where
  path : String
  json : String
  spaces : String
  encoding : String
deriving DecidableEq

/-- The ambient world: which paths exist on disk, the JSON writes
performed, the editor side effects requested, and the fresh-id counter
backing `Tools.RandomId`. -/
structure World where
  existing : List String
  writes : List FileWrite
  effects : List EditorEffect
  fresh : Nat
deriving DecidableEq

/-- The handler's props together with the injected external functions:
the fresh-id supply behind `Tools.RandomId`, the engine's
`material.serialize()` and `Tools.GetExtensionFromMimeType` (all defined
outside the two source files). -/
structure HandlerParams where
  absolutePath : String
  relativePath : String
  freshId : Nat → String
  serializeMat : TopMaterial → String
  extFromMime : String → String

/-- `fs-extra`'s `pathExists` against the modelled world. -/
def pathExistsW (w : World) (p : String) : Bool :=
  w.existing.contains p

/-- `fs-extra`'s `writeJSON`: records the write and makes the path exist. -/
def writeJSONW (w : World) (fw : FileWrite) : World :=
  { w with existing := w.existing ++ [fw.path], writes := w.writes ++ [fw] }

/-- `Tools.RandomId` (defined outside the provided sources): modelled as
drawing the next id from the injected supply. -/
def drawFreshId (P : HandlerParams) (w : World) : String × World :=
  (P.freshId w.fresh, { w with fresh := w.fresh + 1 })

/-- The filename computed at mesh.tsx:242, as the code computes it: the
whole concatenation `name-id.material` is passed through `filenamify`,
with `basename(absolutePath)` substituted for a missing name and the
fresh id `fid` substituted for a missing id. -/
def materialFilenamePure (P : HandlerParams) (name id : Option String) (fid : String) : String :=
  filenamify ((name.getD (basename P.absolutePath)) ++ "-" ++ (id.getD fid) ++ ".material")

/-- The filename as the specification words it: the sanitized
concatenation of the material's name and its id, followed by the
`.material` extension (`filenamify(name-id).material`). Stated from the
spec, for comparison with `materialFilenamePure`. -/
def specMaterialFilename (P : HandlerParams) (name id : Option String) (fid : String) : String :=
  filenamify ((name.getD (basename P.absolutePath)) ++ "-" ++ (id.getD fid)) ++ ".material"

/-- `_createMaterialFile` (mesh.tsx:241-260): computes the sanitized
filename, records `metadata.editorPath`, and writes the serialized
material as tab-indented utf-8 JSON unless the target file already
exists; returns the updated material, whether a write happened, and the
updated world. -/
def createMaterialFile (P : HandlerParams) (tm : TopMaterial) (w : World) :
    TopMaterial × Bool × World :=
  let (idPart, w1) :=
    match tm.base.id with
    | some i => (i, w)
    | none => drawFreshId P w
  let materialFilename :=
    filenamify ((tm.base.name.getD (basename P.absolutePath)) ++ "-" ++ idPart ++ ".material")
  let materialPath := joinPath (dirname P.absolutePath) materialFilename
  let md := tm.base.metadata.getD dMatMeta
  let md1 := { md with editorPath := some (joinPath (dirname P.relativePath) materialFilename) }
  let tm1 := { tm with base := { tm.base with metadata := some md1 } }
  if pathExistsW w1 materialPath then (tm1, false, w1)
  else
    (tm1, true,
      writeJSONW w1
        { path := materialPath, json := P.serializeMat tm1, spaces := "\t", encoding := "utf-8" })

/-! ## Texture and material configuration -/

/-- Modelled from node's `path.extname`: the extension of the last path
component, empty when there is no dot or the only dot is leading. -/
def extname (p : String) : String :=
  let b := (basename p).data
  let suf := b.reverse.takeWhile (fun c => c ≠ '.')
  if suf.length + 1 < b.length then String.mk ('.' :: suf.reverse)
  else ""

/-- The texture filter of `_configureMaterialTextures` (mesh.tsx:266-268):
not a render target, an instance of `Texture` or `CubeTexture`, and not
already processed (`metadata?.editorDone`). -/
def texSelected (t : TextureObj) : Bool :=
  !t.isRenderTarget && t.isTextureOrCube && !(t.metadata.getD dTexMeta).editorDone

/-- The per-texture GLTF branch (mesh.tsx:271-293): marks the texture
done, renames it into the scene's directory — appending the extension
derived from its mime type when it differs from the current one — and
mirrors the name into `url` when a url is present. -/
def configureTextureGltf (P : HandlerParams) (t : TextureObj) : TextureObj :=
  let md := t.metadata.getD dTexMeta
  let t1 := { t with metadata := some { md with editorDone := true } }
  let t2 :=
    match t1.mimeType with
    | some mt =>
      let existingExtension := extname t1.name
      let targetExtension := P.extFromMime mt
      let relativePath := joinPath (dirname P.relativePath) (basename t1.name)
      if existingExtension ≠ targetExtension then { t1 with name := relativePath ++ targetExtension }
      else { t1 with name := relativePath }
    | none => { t1 with name := joinPath (dirname P.relativePath) (basename (t1.url.getD t1.name)) }
  match t2.url with
  | some _ => { t2 with url := some t2.name }
  | none => t2

/-- The per-texture non-GLTF branch (mesh.tsx:298-303): moves the name
into the scene's directory and mirrors it into `url` when present. -/
def configureTextureStd (P : HandlerParams) (t : TextureObj) : TextureObj :=
  let t1 := { t with name := joinPath (dirname P.relativePath) (basename t.name) }
  match t1.url with
  | some _ => { t1 with url := some t1.name }
  | none => t1

/-- `_configureMaterialTextures` (mesh.tsx:265-305): updates the selected
textures in place; in the GLTF case it additionally requests the texture
files to be written and the assets browser refreshed. -/
def configureMaterialTextures (P : HandlerParams) (isGltf : Bool) (m : MaterialObj) (w : World) :
    MaterialObj × World :=
  let texs := m.textures.map (fun t =>
    if texSelected t then
      if isGltf then configureTextureGltf P t else configureTextureStd P t
    else t)
  let w1 :=
    if isGltf then
      { w with effects := w.effects ++
          [EditorEffect.texturesToFiles (dirname P.absolutePath), EditorEffect.assetsBrowserRefresh] }
    else w
  ({ m with textures := texs }, w1)

/-- The sub-material metadata update of the loop body (mesh.tsx:224-229):
`originalSourceFile` is kept when already present, otherwise recorded
from the sub material's current id and name. -/
def subMatRecorded (P : HandlerParams) (m : MaterialObj) : MaterialObj :=
  let md := m.metadata.getD dMatMeta
  let osf := md.originalSourceFile.getD ⟨m.id, m.name, P.relativePath⟩
  { m with metadata := some { md with originalSourceFile := some osf } }

/-- One step of the `for (const m of material.subMaterials)` loop of
`_configureMaterial` (mesh.tsx:212-233), processing the pending sub
materials against the top material's base (which each
`_createMaterialFile` call — made, as in the code, on the *top* material —
keeps updating); the final `Bool` records the early `return` taken on a
null sub material, which skips the assets-browser refresh. -/
def configureSubMaterials (P : HandlerParams) (isGltf : Bool) :
    List (Option MaterialObj) → List (Option MaterialObj) → MaterialObj → World →
    MaterialObj × List (Option MaterialObj) × World × Bool
  | [], done, base, w => (base, done, w, false)
  | none :: rest, done, base, w => (base, done ++ none :: rest, w, true)
  | some m :: rest, done, base, w =>
    let s1 := configureMaterialTextures P isGltf m w
    let m1 := s1.1
    let r := createMaterialFile P ⟨base, true, done ++ some m1 :: rest⟩ s1.2
    if r.2.1 then
      let m2 := subMatRecorded P m1
      let rid := drawFreshId P r.2.2
      configureSubMaterials P isGltf rest (done ++ [some { m2 with id := some rid.1 }]) r.1.base rid.2
    else
      configureSubMaterials P isGltf rest (done ++ [some m1]) r.1.base r.2.2

/-- The material with `metadata.editorDone` set (mesh.tsx:192-193). -/
def doneBase (tm : TopMaterial) : MaterialObj :=
  { tm.base with metadata := some { tm.base.metadata.getD dMatMeta with editorDone := true } }

/-- Stage one of `_configureMaterial` (mesh.tsx:192-197): the material is
marked `editorDone` and, unless it is a multi material, its textures are
configured. -/
def cmStage1 (P : HandlerParams) (isGltf : Bool) (tm : TopMaterial) (w : World) :
    MaterialObj × World :=
  if !tm.isMulti then configureMaterialTextures P isGltf (doneBase tm) w
  else (doneBase tm, w)

/-- The top-level metadata update of `_configureMaterial`
(mesh.tsx:203-208): `originalSourceFile` is kept when already present,
otherwise recorded from the material's current id and name. -/
def topMatRecorded (P : HandlerParams) (tm : TopMaterial) : MaterialObj :=
  let md := tm.base.metadata.getD dMatMeta
  let osf := md.originalSourceFile.getD ⟨tm.base.id, tm.base.name, P.relativePath⟩
  { tm.base with metadata := some { md with originalSourceFile := some osf } }

/-- `_configureMaterial` (mesh.tsx:187-236): skips a material already
marked `editorDone`, marks it, configures its textures (when it is not a
multi material), persists its file, records `originalSourceFile` and
replaces its id by a fresh random one, then walks the sub materials of a
multi material, and finally requests an assets-browser refresh (unless a
null sub material caused the early return, or the file already
existed). -/
def configureMaterial (P : HandlerParams) (isGltf : Bool) (tm : TopMaterial) (w : World) :
    TopMaterial × World :=
  if (tm.base.metadata.getD dMatMeta).editorDone then (tm, w)
  else
    let s1 := cmStage1 P isGltf tm w
    let r := createMaterialFile P ⟨s1.1, tm.isMulti, tm.subMaterials⟩ s1.2
    if r.2.1 then
      let rid := drawFreshId P r.2.2
      let base3 := { topMatRecorded P r.1 with id := some rid.1 }
      if r.1.isMulti then
        let s4 := configureSubMaterials P isGltf r.1.subMaterials [] base3 rid.2
        if s4.2.2.2 then (⟨s4.1, r.1.isMulti, s4.2.1⟩, s4.2.2.1)
        else
          (⟨s4.1, r.1.isMulti, s4.2.1⟩,
            { s4.2.2.1 with effects := s4.2.2.1.effects ++ [EditorEffect.assetsBrowserRefresh] })
      else
        (⟨base3, r.1.isMulti, r.1.subMaterials⟩,
          { rid.2 with effects := rid.2.effects ++ [EditorEffect.assetsBrowserRefresh] })
    else (r.1, r.2.2)

/-! ## Concrete instances used by witnesses and counterexamples -/

/-- Concrete handler parameters for witness evaluation. -/
def P0 : HandlerParams where
  absolutePath := "/project/assets/scene.glb"
  relativePath := "assets/scene.glb"
  freshId := fun n => "rid" ++ toString n
  serializeMat := fun tm => "serialized-" ++ (tm.base.name.getD "")
  extFromMime := fun _ => ".png"

/-- An empty world: nothing on disk, nothing written, counter at zero. -/
def emptyWorld : World := ⟨[], [], [], 0⟩

/-- A material whose id ends in a period. -/
def matDot : TopMaterial where
  base := { id := some "x.", name := some "albedo", metadata := none, textures := [], rest := "" }
  isMulti := false
  subMaterials := []

/-- An ordinary material. -/
def mat1 : TopMaterial where
  base := { id := some "matid", name := some "albedo", metadata := none, textures := [], rest := "" }
  isMulti := false
  subMaterials := []

/-- A world in which `mat1`'s material file already exists. -/
def worldWithMat1 : World := ⟨["/project/assets/albedo-matid.material"], [], [], 0⟩

/-- A material already marked `editorDone`. -/
def matDone : TopMaterial where
  base := { id := some "matid", name := some "albedo",
            metadata := some ⟨true, none, none, ""⟩, textures := [], rest := "" }
  isMulti := false
  subMaterials := []

/-! ## The console panel (`console.tsx`)

Terminals are modelled as optional buffers of write operations (`none`
while the widget has not been created); the process standard output
streams are a single list of tagged messages. -/

/-- `ConsoleLogType` (console.tsx:15-32). -/
inductive ConsoleLogType where
  | info
  | warning
  | error
  | raw
deriving DecidableEq

/-- `ConsoleLayer` (console.tsx:34-43). -/
inductive ConsoleLayer where
  | common
  | webPack
deriving DecidableEq

/-- One operation on an xterm terminal: `writeln` appends a full line,
`write` appends raw text. -/
inductive TermWrite where
  | writeln (s : String)
  | write (s : String)
deriving DecidableEq

/-- The console streams (`console.info` / `console.warn` /
`console.error` / `console.log`). -/
inductive StdStream where
  | info
  | warn
  | error
  | log
deriving DecidableEq

/-- `IConsoleLog` (console.tsx:59-72): the optional layer models the
optional `layer?` property. -/
structure ConsoleLog where
  type : ConsoleLogType
  message : String
  layer : Option ConsoleLayer
deriving DecidableEq

/-- The mutable state of the `Console` component that `_addLog` touches:
the two terminals (which may not have been created) and the mirrored
standard output. -/
structure ConsoleState where
  terminalCommon : Option (List TermWrite)
  terminalWebPack : Option (List TermWrite)
  stdout : List (StdStream × String)
deriving DecidableEq

/-- JS whitespace characters relevant to `String.prototype.trim` as used
here (space, tab, newline, carriage return). -/
def isJsSpace (c : Char) : Bool :=
  c == ' ' || c == '\t' || c == '\n' || c == '\r'

/-- `message.trim()` of console.tsx:278. -/
def trimStr (s : String) : String :=
  String.mk (((s.data.dropWhile isJsSpace).reverse.dropWhile isJsSpace).reverse)

/-- The terminal selected by `_addLog` (console.tsx:260): the `Common`
terminal when the layer is omitted or `Common`, else the WebPack one. -/
def selectedTerminal (st : ConsoleState) (layer : Option ConsoleLayer) :
    Option (List TermWrite) :=
  if layer.getD ConsoleLayer.common = ConsoleLayer.common then st.terminalCommon
  else st.terminalWebPack

/-- Stores a buffer back into the terminal `_addLog` selected. -/
def writeSelected (st : ConsoleState) (layer : Option ConsoleLayer) (buf : List TermWrite) :
    ConsoleState :=
  if layer.getD ConsoleLayer.common = ConsoleLayer.common then
    { st with terminalCommon := some buf }
  else { st with terminalWebPack := some buf }

/-- `_addLog` (console.tsx:258-281): a no-op when the selected terminal
has not been created; otherwise writes the prefixed line (or the raw
text) to the terminal and mirrors the message to the matching standard
output stream. -/
def addLog (st : ConsoleState) (log : ConsoleLog) : ConsoleState :=
  match selectedTerminal st log.layer with
  | none => st
  | some buf =>
    match log.type with
    | ConsoleLogType.info =>
      { writeSelected st log.layer (buf ++ [TermWrite.writeln ("[INFO]: " ++ log.message)]) with
        stdout := st.stdout ++ [(StdStream.info, log.message)] }
    | ConsoleLogType.warning =>
      { writeSelected st log.layer (buf ++ [TermWrite.writeln ("[WARN]: " ++ log.message)]) with
        stdout := st.stdout ++ [(StdStream.warn, log.message)] }
    | ConsoleLogType.error =>
      { writeSelected st log.layer (buf ++ [TermWrite.writeln ("[ERROR]: " ++ log.message)]) with
        stdout := st.stdout ++ [(StdStream.error, log.message)] }
    | ConsoleLogType.raw =>
      { writeSelected st log.layer (buf ++ [TermWrite.write log.message]) with
        stdout := st.stdout ++ [(StdStream.log, trimStr log.message)] }

/-- `logInfo` (console.tsx:204-206). -/
def logInfo (st : ConsoleState) (message : String) (layer : Option ConsoleLayer) : ConsoleState :=
  addLog st ⟨ConsoleLogType.info, message, layer⟩

/-- `logWarning` (console.tsx:213-215). -/
def logWarning (st : ConsoleState) (message : String) (layer : Option ConsoleLayer) : ConsoleState :=
  addLog st ⟨ConsoleLogType.warning, message, layer⟩

/-- `logError` (console.tsx:222-224). -/
def logError (st : ConsoleState) (message : String) (layer : Option ConsoleLayer) : ConsoleState :=
  addLog st ⟨ConsoleLogType.error, message, layer⟩

/-- `logRaw` (console.tsx:231-233). -/
def logRaw (st : ConsoleState) (message : String) (layer : Option ConsoleLayer) : ConsoleState :=
  addLog st ⟨ConsoleLogType.raw, message, layer⟩

/-- The layer other than the given one. -/
def otherLayer : ConsoleLayer → ConsoleLayer
  | ConsoleLayer.common => ConsoleLayer.webPack
  | ConsoleLayer.webPack => ConsoleLayer.common

/-! ## The preview computation (`computePreview`, mesh.tsx:28-39/63-81)

The React nodes that matter are modelled structurally; the `async`
fire-and-forget `_computePreview` is lowered to the worker call it
issues plus the continuation run once the worker's path resolves. -/

/-- A structural model of the React nodes the handler produces. -/
inductive ReactNode where
  | icon (src : String)
  | spinner (size : Nat)
  | img (src : String)
  | div (children : List ReactNode)

/-- A call dispatched to the background assets worker. -/
inductive WorkerCall where
  | createScenePreview (path : String)
deriving DecidableEq

/-- The placeholder `computePreview` returns immediately: the engine logo
with a spinner overlay (mesh.tsx:31-38). -/
def meshPreviewPlaceholder : ReactNode :=
  ReactNode.div
    [ReactNode.icon "logo-babylon.svg", ReactNode.div [ReactNode.spinner 24]]

/-- The component state touched by `_computePreview`. -/
structure HandlerState where
  previewImage : Option ReactNode

/-- `computePreview` (mesh.tsx:28-39): fires `_computePreview` without
awaiting it — issuing one `createScenePreview` worker call on the asset's
absolute path — and immediately returns the placeholder node. -/
def computePreview (absolutePath : String) : ReactNode × List WorkerCall :=
  (ReactNode.div
    [ReactNode.icon "logo-babylon.svg", ReactNode.div [ReactNode.spinner 24]],
   [WorkerCall.createScenePreview absolutePath])

/-- The continuation of `_computePreview` (mesh.tsx:70-80) once the
worker resolves with the preview image path: stores the `img` node in the
component state. -/
def computePreviewResolve (workerPath : String) (st : HandlerState) : HandlerState :=
  { st with previewImage := some (ReactNode.img workerPath) }

/-! ## Skeletons (`_configureSkeletons`, mesh.tsx:120-136)

Imported skeletons are already registered in the scene by the loader, so
mutating an imported skeleton mutates the scene's entry; the imported
skeletons are therefore addressed by their indices in
`scene.skeletons`. -/

/-- A Babylon skeleton id: the loader may produce string ids while
`_configureSkeletons` assigns numeric ones (the code remarks that
"Skeleton Ids are not strings but numbers"); the JS strict equality used
by `getSkeletonById` never equates the two kinds. -/
inductive SkelId where
  | num (n : Int)
  | str (s : String)
deriving DecidableEq

/-- Bone metadata fields used by the handler. -/
structure BoneMetadata where
  originalId : Option String
  rest : String
deriving DecidableEq

/-- The freshly created (empty) bone metadata object. -/
def dBoneMeta : BoneMetadata := ⟨none, ""⟩

/-- A bone of a skeleton. -/
structure Bone where
  id : String
  metadata : Option BoneMetadata
  rest : String
deriving DecidableEq

/-- A skeleton. -/
structure Skeleton where
  id : SkelId
  bones : List Bone
  rest : String
deriving DecidableEq

/-- The scene, as far as `_configureSkeletons` reads it. -/
structure SceneObj where
  skeletons : List Skeleton
deriving DecidableEq

/-- `scene.getSkeletonById` (engine): the first skeleton whose id equals
the probe. -/
def getSkeletonById (sc : SceneObj) (i : SkelId) : Option Skeleton :=
  sc.skeletons.find? (fun s => s.id = i)

/-- Whether the numeric id `i` is in use by some skeleton of the scene. -/
def skelIdUsed (sc : SceneObj) (i : Nat) : Bool :=
  (getSkeletonById sc (SkelId.num (Int.ofNat i))).isSome

/-- A strict upper bound on the numeric skeleton ids in use. -/
def numIdBound (sc : SceneObj) : Nat :=
  sc.skeletons.foldr
    (fun s acc =>
      match s.id with
      | SkelId.num n => Nat.max (n.toNat + 1) acc
      | SkelId.str _ => acc)
    0

/-- The `while (scene.getSkeletonById(id as any)) id++;` loop
(mesh.tsx:123-126), run with enough fuel to pass every used numeric
id. -/
def nextFreeAux (sc : SceneObj) : Nat → Nat → Nat
  | 0, i => i
  | fuel + 1, i => if skelIdUsed sc i then nextFreeAux sc fuel (i + 1) else i

/-- The id the while loop settles on, starting from `0`. -/
def nextFreeSkeletonId (sc : SceneObj) : Nat :=
  nextFreeAux sc (numIdBound sc + 1) 0

/-- A bone after the loop body: its id replaced by the fresh id `rid` and
`metadata.originalId` set to that same new id. -/
def boneAssigned (b : Bone) (rid : String) : Bone :=
  let md := { b.metadata.getD dBoneMeta with originalId := some rid }
  { b with id := rid, metadata := some md }

/-- The bone loop of `_configureSkeletons` (mesh.tsx:129-134): each bone
gets a fresh random id, and `metadata.originalId` is then set from
`b.id` — which already holds the *new* id. -/
def assignBones (P : HandlerParams) : List Bone → World → List Bone × World
  | [], w => ([], w)
  | b :: bs, w =>
    let rid := drawFreshId P w
    let r := assignBones P bs rid.2
    (boneAssigned b rid.1 :: r.1, r.2)

/-- A skeleton after its loop body: numeric id `i` and rewritten bones. -/
def skelAssigned (s : Skeleton) (i : Nat) (bones : List Bone) : Skeleton :=
  { s with id := SkelId.num (Int.ofNat i), bones := bones }

/-- One iteration of `_configureSkeletons` (mesh.tsx:121-135), acting on
the skeleton at index `k` of the scene: the while loop finds the first
free numeric id on the scene as it is at that moment, then the skeleton's
id and its bones are rewritten in place. -/
def configureOneSkeleton (P : HandlerParams) (sc : SceneObj) (k : Nat) (w : World) :
    SceneObj × World :=
  match sc.skeletons[k]? with
  | none => (sc, w)
  | some s =>
    let i := nextFreeSkeletonId sc
    let r := assignBones P s.bones w
    (⟨sc.skeletons.set k (skelAssigned s i r.1)⟩, r.2)

/-- `_configureSkeletons` (mesh.tsx:120-136) over the indices of the
imported skeletons. -/
def configureSkeletons (P : HandlerParams) : List Nat → SceneObj → World → SceneObj × World
  | [], sc, w => (sc, w)
  | k :: ks, sc, w =>
    let r := configureOneSkeleton P sc k w
    configureSkeletons P ks r.1 r.2

/-! ## Meshes, transform nodes and particle systems
(mesh.tsx:111-182) -/

/-- A 3-vector; the handler only translates positions, which exact
integer components model faithfully. -/
structure Vec3 where
  x : Int
  y : Int
  z : Int
deriving DecidableEq

/-- `position.addInPlace`. -/
def Vec3.add (a b : Vec3) : Vec3 := ⟨a.x + b.x, a.y + b.y, a.z + b.z⟩

/-- Mesh metadata fields used by the handler. -/
structure MeshMetadata where
  basePoseMatrix : Option (List Int)
  originalSourceFile : Option SourceFileRef
  rest : String
deriving DecidableEq

/-- The freshly created (empty) mesh metadata object. -/
def dMeshMeta : MeshMetadata := ⟨none, none, ""⟩

/-- A mesh geometry, whose id the pass regenerates. -/
structure GeometryObj where
  id : String
  rest : String
deriving DecidableEq

/-- An imported (abstract) mesh: `isMeshClass` captures the
`instanceof Mesh` test, `poseMatrix` the value of
`getPoseMatrix().asArray()`, and `hasParent` whether `parent` is set. -/
structure MeshObj where
  id : String
  name : String
  metadata : Option MeshMetadata
  hasParent : Bool
  position : Vec3
  material : Option TopMaterial
  isMeshClass : Bool
  geometry : Option GeometryObj
  poseMatrix : List Int
  rest : String
deriving DecidableEq

/-- An imported transform node. -/
structure TransformNodeObj where
  id : String
  name : String
  hasParent : Bool
  position : Vec3
  rest : String
deriving DecidableEq

/-- An imported particle system. -/
structure ParticleSystemObj where
  id : String
  rest : String
deriving DecidableEq

/-- One iteration of `_configureMeshes` (mesh.tsx:155-181); `pick` is the
drop event's `pick?.pickedPoint`. -/
def configureOneMesh (P : HandlerParams) (pick : Option Vec3) (isGltf : Bool)
    (m : MeshObj) (w : World) : MeshObj × World :=
  let mmd1 := { m.metadata.getD dMeshMeta with basePoseMatrix := some m.poseMatrix }
  let m1 := { m with metadata := some mmd1 }
  let m2 :=
    if !m1.hasParent && pick.isSome then
      { m1 with position := m1.position.add (pick.getD ⟨0, 0, 0⟩) }
    else m1
  let s3 :=
    match m2.material with
    | some tm =>
      let r := configureMaterial P isGltf tm w
      ({ m2 with material := some r.1 }, r.2)
    | none => (m2, w)
  let s4 :=
    if s3.1.isMeshClass then
      let osf : SourceFileRef := ⟨some s3.1.id, some s3.1.name, P.relativePath⟩
      let mmd4 := { s3.1.metadata.getD dMeshMeta with originalSourceFile := some osf }
      let m4 := { s3.1 with metadata := some mmd4 }
      match m4.geometry with
      | some g =>
        let rid := drawFreshId P s3.2
        ({ m4 with geometry := some { g with id := rid.1 } }, rid.2)
      | none => (m4, s3.2)
    else (s3.1, s3.2)
  let rid := drawFreshId P s4.2
  ({ s4.1 with id := rid.1 }, rid.2)

/-- `_configureMeshes` (mesh.tsx:154-182). -/
def configureMeshes (P : HandlerParams) (pick : Option Vec3) (isGltf : Bool) :
    List MeshObj → World → List MeshObj × World
  | [], w => ([], w)
  | m :: ms, w =>
    let r := configureOneMesh P pick isGltf m w
    let rs := configureMeshes P pick isGltf ms r.2
    (r.1 :: rs.1, rs.2)

/-- One iteration of `_configureTransformNodes` (mesh.tsx:142-148). -/
def configureOneTransformNode (P : HandlerParams) (pick : Option Vec3)
    (tn : TransformNodeObj) (w : World) : TransformNodeObj × World :=
  let rid := drawFreshId P w
  let tn1 := { tn with id := rid.1 }
  let tn2 :=
    if !tn1.hasParent && pick.isSome then
      { tn1 with position := tn1.position.add (pick.getD ⟨0, 0, 0⟩) }
    else tn1
  (tn2, rid.2)

/-- `_configureTransformNodes` (mesh.tsx:141-149). -/
def configureTransformNodes (P : HandlerParams) (pick : Option Vec3) :
    List TransformNodeObj → World → List TransformNodeObj × World
  | [], w => ([], w)
  | tn :: tns, w =>
    let r := configureOneTransformNode P pick tn w
    let rs := configureTransformNodes P pick tns r.2
    (r.1 :: rs.1, rs.2)

/-- `_configureParticleSystems` (mesh.tsx:111-115). -/
def configureParticleSystems (P : HandlerParams) :
    List ParticleSystemObj → World → List ParticleSystemObj × World
  | [], w => ([], w)
  | ps :: rest, w =>
    let rid := drawFreshId P w
    let r := configureParticleSystems P rest rid.2
    ({ ps with id := rid.1 } :: r.1, r.2)

/-! ## Frame projections: the fields the configuration pass never touches -/

/-- The texture fields the pass never modifies (name, url and metadata
are the mutable ones). -/
def texFrame (t : TextureObj) : String × Bool × Bool × Option String :=
  (t.rest, t.isRenderTarget, t.isTextureOrCube, t.mimeType)

/-- The material fields the pass never modifies (id and metadata are the
mutable ones; textures mutate only outside their own `texFrame`). -/
def matFrame (m : MaterialObj) :=
  (m.name, m.rest, m.textures.map texFrame)

/-- The top-material fields the pass never modifies. -/
def topMatFrame (tm : TopMaterial) :=
  (matFrame tm.base, tm.isMulti, tm.subMaterials.map (Option.map matFrame))

/-- The mesh fields the pass never modifies: everything except id,
metadata, position, the geometry id and the material's mutable fields. -/
def meshFrame (m : MeshObj) :=
  (m.name, m.hasParent, m.isMeshClass, m.poseMatrix, m.rest,
   m.geometry.map GeometryObj.rest, m.material.map topMatFrame)

/-- The transform-node fields the pass never modifies. -/
def tnFrame (tn : TransformNodeObj) :=
  (tn.name, tn.hasParent, tn.rest)

/-- The skeleton fields the pass never modifies (id mutates; bones mutate
only in id and metadata). -/
def skelFrame (s : Skeleton) :=
  (s.rest, s.bones.map Bone.rest)

/-- A concrete scene with one numeric-id and one string-id skeleton. -/
def scene0 : SceneObj :=
  ⟨[⟨SkelId.num 5, [⟨"boneA", none, "rbone"⟩], "sA"⟩, ⟨SkelId.str "sk", [], "sB"⟩]⟩

/-- The default skeleton used with `List.getD`. -/
def dSkel : Skeleton := ⟨SkelId.str "", [], ""⟩

/-- The first skeleton of `scene0` after the configuration pass. -/
def skelRes0 : Skeleton :=
  (configureSkeletons P0 [0, 1] scene0 emptyWorld).1.skeletons.getD 0 dSkel

/-- The second skeleton of `scene0` after the configuration pass. -/
def skelRes1 : Skeleton :=
  (configureSkeletons P0 [0, 1] scene0 emptyWorld).1.skeletons.getD 1 dSkel

/-- A parentless transform node at the origin. -/
def tn0 : TransformNodeObj := ⟨"tnid", "node", false, ⟨0, 0, 0⟩, "tn"⟩

/-- The default transform node used with `List.getD`. -/
def dTN : TransformNodeObj := ⟨"", "", false, ⟨0, 0, 0⟩, ""⟩

/-- A plain selected texture with a url. -/
def tex0 : TextureObj := ⟨"albedo.png", some "albedo.png", none, none, false, true, "t"⟩

/-- The default texture used with `List.getD`. -/
def dTex : TextureObj := ⟨"", none, none, none, false, false, ""⟩

/-- A material holding `tex0`. -/
def matTex : MaterialObj := ⟨some "mid", some "mat", none, [tex0], "m"⟩

/-- A parentless mesh with a geometry and no material. -/
def mesh0 : MeshObj :=
  ⟨"meshid", "mesh", none, false, ⟨0, 0, 0⟩, none, true, some ⟨"geoid", "g"⟩, [1, 0], "me"⟩

/-- A console state with both terminals created and empty. -/
def stTerm : ConsoleState := ⟨some [], some [], []⟩

/-- A console state in which no terminal has been created yet. -/
def stNoTerm : ConsoleState := ⟨none, none, []⟩

/-! ## Component lemmas about `_createMaterialFile` and the texture pass -/

/-- The metadata value `_createMaterialFile` stores on the material. -/
def editorPathMeta (P : HandlerParams) (tm : TopMaterial) (fid : String) : MaterialMetadata :=
  { tm.base.metadata.getD dMatMeta with
    editorPath := some (joinPath (dirname P.relativePath)
      (materialFilenamePure P tm.base.name tm.base.id fid)) }

theorem cmf_fst (P : HandlerParams) (tm : TopMaterial) (w : World) :
    (createMaterialFile P tm w).1
      = { tm with base :=
          { tm.base with metadata := some (editorPathMeta P tm (P.freshId w.fresh)) } } := by
  unfold createMaterialFile editorPathMeta
  cases hid : tm.base.id <;>
    simp [materialFilenamePure, drawFreshId, hid] <;> split <;> rfl

theorem cmf_ok (P : HandlerParams) (tm : TopMaterial) (w : World) :
    (createMaterialFile P tm w).2.1
      = !pathExistsW w (joinPath (dirname P.absolutePath)
          (materialFilenamePure P tm.base.name tm.base.id (P.freshId w.fresh))) := by
  unfold createMaterialFile
  cases hid : tm.base.id <;>
    simp [materialFilenamePure, drawFreshId, hid, pathExistsW] <;> split <;> simp_all

theorem cmf_world_of_exists (P : HandlerParams) (tm : TopMaterial) (w : World)
    (h : pathExistsW w (joinPath (dirname P.absolutePath)
          (materialFilenamePure P tm.base.name tm.base.id (P.freshId w.fresh))) = true) :
    ((createMaterialFile P tm w).2.2).writes = w.writes ∧
    ((createMaterialFile P tm w).2.2).existing = w.existing ∧
    ((createMaterialFile P tm w).2.2).effects = w.effects := by
  unfold createMaterialFile
  cases hid : tm.base.id <;>
    simp_all [materialFilenamePure, drawFreshId, pathExistsW]

theorem cmt_fst (P : HandlerParams) (g : Bool) (m : MaterialObj) (w : World) :
    (configureMaterialTextures P g m w).1
      = { m with textures := m.textures.map (fun t =>
          if texSelected t then
            if g then configureTextureGltf P t else configureTextureStd P t
          else t) } := rfl

theorem cmt_world (P : HandlerParams) (g : Bool) (m : MaterialObj) (w : World) :
    ((configureMaterialTextures P g m w).2).existing = w.existing ∧
    ((configureMaterialTextures P g m w).2).writes = w.writes ∧
    ((configureMaterialTextures P g m w).2).fresh = w.fresh := by
  cases g <;> exact ⟨rfl, rfl, rfl⟩

/-- The `editorDone` flag survives `_createMaterialFile`. -/
theorem editorPathMeta_editorDone (P : HandlerParams) (tm : TopMaterial) (fid : String) :
    (editorPathMeta P tm fid).editorDone = (tm.base.metadata.getD dMatMeta).editorDone := rfl

/-- The `originalSourceFile` field survives `_createMaterialFile`. -/
theorem editorPathMeta_osf (P : HandlerParams) (tm : TopMaterial) (fid : String) :
    (editorPathMeta P tm fid).originalSourceFile
      = (tm.base.metadata.getD dMatMeta).originalSourceFile := rfl

/-- Through the sub-material loop, the top material's `editorDone` flag is
preserved (the loop only rewrites the top's `editorPath`). -/
theorem subMats_base_editorDone (P : HandlerParams) (g : Bool) :
    ∀ (pending done : List (Option MaterialObj)) (base : MaterialObj) (w : World),
    (((configureSubMaterials P g pending done base w).1).metadata.getD dMatMeta).editorDone
      = (base.metadata.getD dMatMeta).editorDone := by
  intro pending
  induction pending with
  | nil => intro done base w; rfl
  | cons hd tl ih =>
    intro done base w
    cases hd with
    | none => rfl
    | some m =>
      simp only [configureSubMaterials]
      split <;> rw [ih] <;> rw [cmf_fst] <;> rfl

theorem cmStage1_name (P : HandlerParams) (g : Bool) (tm : TopMaterial) (w : World) :
    (cmStage1 P g tm w).1.name = tm.base.name := by
  unfold cmStage1 doneBase
  split <;> simp [cmt_fst]

theorem cmStage1_id (P : HandlerParams) (g : Bool) (tm : TopMaterial) (w : World) :
    (cmStage1 P g tm w).1.id = tm.base.id := by
  unfold cmStage1 doneBase
  split <;> simp [cmt_fst]

theorem cmStage1_osf (P : HandlerParams) (g : Bool) (tm : TopMaterial) (w : World) :
    ((cmStage1 P g tm w).1.metadata.getD dMatMeta).originalSourceFile
      = (tm.base.metadata.getD dMatMeta).originalSourceFile := by
  unfold cmStage1 doneBase
  split <;> simp [cmt_fst]

/-- Stage one always leaves the `editorDone` mark set. -/
theorem cmStage1_done (P : HandlerParams) (g : Bool) (tm : TopMaterial) (w : World) :
    ((cmStage1 P g tm w).1.metadata.getD dMatMeta).editorDone = true := by
  unfold cmStage1 doneBase
  split <;> simp [cmt_fst]

theorem cmStage1_world (P : HandlerParams) (g : Bool) (tm : TopMaterial) (w : World) :
    (cmStage1 P g tm w).2.existing = w.existing ∧
    (cmStage1 P g tm w).2.writes = w.writes ∧
    (cmStage1 P g tm w).2.fresh = w.fresh := by
  unfold cmStage1
  split
  · exact ⟨(cmt_world P g (doneBase tm) w).1, (cmt_world P g (doneBase tm) w).2.1,
      (cmt_world P g (doneBase tm) w).2.2⟩
  · exact ⟨rfl, rfl, rfl⟩

/-! ## C1: the persisted material filename -/

/-- **C1 (counterexample).** For the material named `albedo` with id `x.`,
the file written by `_createMaterialFile` is *not* named by the sanitized
`name-id` concatenation followed by the `.material` extension: the code
sanitizes the whole string including the extension, so the two periods
survive (`albedo-x..material`), whereas sanitizing `name-id` alone drops
the trailing period (`albedo-x.material`). -/
theorem createMaterialFile_filename_cex :
    ((createMaterialFile P0 matDot emptyWorld).2.2).writes.map FileWrite.path
      ≠ emptyWorld.writes.map FileWrite.path ++
        [joinPath (dirname P0.absolutePath)
          (specMaterialFilename P0 matDot.base.name matDot.base.id (P0.freshId emptyWorld.fresh))] := by
  decide

/-- **C1 (amended).** For every material whose file is persisted by
`_createMaterialFile`, the filename of the written file is
`filenamify(name-id.material)` — the sanitizer is applied to the whole
concatenation of the material's name, its id and the `.material`
extension — with `basename(absolutePath)` substituted when the name is
missing and a fresh random id substituted when the id is missing. -/
theorem createMaterialFile_filename (P : HandlerParams) (tm : TopMaterial) (w : World)
    (h : pathExistsW w (joinPath (dirname P.absolutePath)
          (materialFilenamePure P tm.base.name tm.base.id (P.freshId w.fresh))) = false) :
    ((createMaterialFile P tm w).2.2).writes.map FileWrite.path
      = w.writes.map FileWrite.path ++
        [joinPath (dirname P.absolutePath)
          (materialFilenamePure P tm.base.name tm.base.id (P.freshId w.fresh))] := by
  unfold createMaterialFile
  cases hid : tm.base.id <;>
    simp_all [materialFilenamePure, writeJSONW, drawFreshId, pathExistsW]

/-- Witness for `createMaterialFile_filename` at a concrete material. -/
theorem createMaterialFile_filename_witness :
    pathExistsW emptyWorld (joinPath (dirname P0.absolutePath)
        (materialFilenamePure P0 matDot.base.name matDot.base.id (P0.freshId emptyWorld.fresh))) = false ∧
    ((createMaterialFile P0 matDot emptyWorld).2.2).writes.map FileWrite.path
      = emptyWorld.writes.map FileWrite.path ++
        [joinPath (dirname P0.absolutePath)
          (materialFilenamePure P0 matDot.base.name matDot.base.id (P0.freshId emptyWorld.fresh))] :=
  ⟨by decide, createMaterialFile_filename P0 matDot emptyWorld (by decide)⟩

/-! ## C3: no overwrite of an existing material file -/

/-- **C3.** `_createMaterialFile` checks existence first: when the target
material file already exists it returns `false` and performs no write, so
an existing material file is never overwritten. -/
theorem createMaterialFile_no_overwrite (P : HandlerParams) (tm : TopMaterial) (w : World)
    (h : pathExistsW w (joinPath (dirname P.absolutePath)
          (materialFilenamePure P tm.base.name tm.base.id (P.freshId w.fresh))) = true) :
    (createMaterialFile P tm w).2.1 = false ∧
    ((createMaterialFile P tm w).2.2).writes = w.writes ∧
    ((createMaterialFile P tm w).2.2).existing = w.existing := by
  unfold createMaterialFile
  cases hid : tm.base.id <;>
    simp_all [materialFilenamePure, drawFreshId, pathExistsW]

/-- Witness for `createMaterialFile_no_overwrite`: `mat1`'s file exists. -/
theorem createMaterialFile_no_overwrite_witness :
    pathExistsW worldWithMat1 (joinPath (dirname P0.absolutePath)
        (materialFilenamePure P0 mat1.base.name mat1.base.id (P0.freshId worldWithMat1.fresh))) = true ∧
    ((createMaterialFile P0 mat1 worldWithMat1).2.1 = false ∧
      ((createMaterialFile P0 mat1 worldWithMat1).2.2).writes = worldWithMat1.writes ∧
      ((createMaterialFile P0 mat1 worldWithMat1).2.2).existing = worldWithMat1.existing) :=
  ⟨by decide, createMaterialFile_no_overwrite P0 mat1 worldWithMat1 (by decide)⟩

/-! ## C6: content of the written material file -/

/-- **C6.** Every material file written by `_createMaterialFile` contains
the engine's own serialization of the material (as updated with
`metadata.editorPath`, i.e. the returned material), written as indented
JSON with tab indentation and utf-8 encoding. -/
theorem createMaterialFile_write_content (P : HandlerParams) (tm : TopMaterial) (w : World)
    (h : pathExistsW w (joinPath (dirname P.absolutePath)
          (materialFilenamePure P tm.base.name tm.base.id (P.freshId w.fresh))) = false) :
    ((createMaterialFile P tm w).2.2).writes
      = w.writes ++
        [{ path := joinPath (dirname P.absolutePath)
              (materialFilenamePure P tm.base.name tm.base.id (P.freshId w.fresh)),
           json := P.serializeMat ((createMaterialFile P tm w).1),
           spaces := "\t", encoding := "utf-8" }] := by
  unfold createMaterialFile
  cases hid : tm.base.id <;>
    simp_all [materialFilenamePure, writeJSONW, drawFreshId, pathExistsW]

/-- Witness for `createMaterialFile_write_content` at a concrete material. -/
theorem createMaterialFile_write_content_witness :
    pathExistsW emptyWorld (joinPath (dirname P0.absolutePath)
        (materialFilenamePure P0 mat1.base.name mat1.base.id (P0.freshId emptyWorld.fresh))) = false ∧
    ((createMaterialFile P0 mat1 emptyWorld).2.2).writes
      = emptyWorld.writes ++
        [{ path := joinPath (dirname P0.absolutePath)
              (materialFilenamePure P0 mat1.base.name mat1.base.id (P0.freshId emptyWorld.fresh)),
           json := P0.serializeMat ((createMaterialFile P0 mat1 emptyWorld).1),
           spaces := "\t", encoding := "utf-8" }] :=
  ⟨by decide, createMaterialFile_write_content P0 mat1 emptyWorld (by decide)⟩

/-! ## C9: idempotence of `_configureMaterial` -/

/-- **C9.** `_configureMaterial` is idempotent: the material returned by
any call carries `metadata.editorDone`, and a call on a material whose
`metadata.editorDone` is already set returns immediately, leaving the
material's fields and the world — filesystem included — unchanged. -/
theorem configureMaterial_idempotent (P : HandlerParams) (isGltf : Bool) (tm : TopMaterial)
    (w : World) (h : (tm.base.metadata.getD dMatMeta).editorDone = true) :
    configureMaterial P isGltf tm w = (tm, w) ∧
    (∀ (tm' : TopMaterial) (w' : World),
      (((configureMaterial P isGltf tm' w').1).base.metadata.getD dMatMeta).editorDone = true) := by
  constructor
  · simp [configureMaterial, h]
  · intro tm' w'
    by_cases hd : (tm'.base.metadata.getD dMatMeta).editorDone = true
    · simp [configureMaterial, hd]
    · simp only [configureMaterial]
      rw [if_neg hd]
      repeat' split
      all_goals
        simp_all [subMats_base_editorDone, cmf_fst, editorPathMeta, topMatRecorded,
          cmt_fst, doneBase, cmStage1_done]

/-- Witness for `configureMaterial_idempotent` on a marked material. -/
theorem configureMaterial_idempotent_witness :
    (matDone.base.metadata.getD dMatMeta).editorDone = true ∧
    configureMaterial P0 false matDone emptyWorld = (matDone, emptyWorld) :=
  ⟨by decide, (configureMaterial_idempotent P0 false matDone emptyWorld (by decide)).1⟩

/-! ## C4: early, silent return when the material file already exists -/

/-- Under an already-existing material file, `_createMaterialFile` inside
`_configureMaterial` reports `false`, so the function returns right
after it. -/
theorem configureMaterial_eq_of_exists (P : HandlerParams) (g : Bool) (tm : TopMaterial)
    (w : World) (hd : ((tm.base.metadata.getD dMatMeta).editorDone = true) → False)
    (h : pathExistsW w (joinPath (dirname P.absolutePath)
          (materialFilenamePure P tm.base.name tm.base.id (P.freshId w.fresh))) = true) :
    configureMaterial P g tm w
      = ((createMaterialFile P ⟨(cmStage1 P g tm w).1, tm.isMulti, tm.subMaterials⟩
            (cmStage1 P g tm w).2).1,
         (createMaterialFile P ⟨(cmStage1 P g tm w).1, tm.isMulti, tm.subMaterials⟩
            (cmStage1 P g tm w).2).2.2) := by
  have hok : (createMaterialFile P ⟨(cmStage1 P g tm w).1, tm.isMulti, tm.subMaterials⟩
      (cmStage1 P g tm w).2).2.1 = false := by
    rw [cmf_ok]
    show (!pathExistsW (cmStage1 P g tm w).2 (joinPath (dirname P.absolutePath)
      (materialFilenamePure P (cmStage1 P g tm w).1.name (cmStage1 P g tm w).1.id
        (P.freshId (cmStage1 P g tm w).2.fresh)))) = false
    rw [cmStage1_name, cmStage1_id, (cmStage1_world P g tm w).2.2]
    show (!((cmStage1 P g tm w).2.existing.contains _)) = false
    rw [(cmStage1_world P g tm w).1]
    rw [show ∀ (l : List String) (p : String), l.contains p = pathExistsW ⟨l, w.writes, w.effects, w.fresh⟩ p from fun _ _ => rfl]
    simp_all [pathExistsW]
  simp only [configureMaterial]
  rw [if_neg hd]
  rw [hok]
  simp

/-- **C4.** When a material's file already exists on disk,
`_configureMaterial` returns early and silently: the material's
`originalSourceFile` metadata is not recorded, its id is not replaced by
a fresh random id, and nothing is written. -/
theorem configureMaterial_exists_skips (P : HandlerParams) (isGltf : Bool) (tm : TopMaterial)
    (w : World)
    (h : pathExistsW w (joinPath (dirname P.absolutePath)
          (materialFilenamePure P tm.base.name tm.base.id (P.freshId w.fresh))) = true) :
    ((configureMaterial P isGltf tm w).1).base.id = tm.base.id ∧
    (((configureMaterial P isGltf tm w).1).base.metadata.getD dMatMeta).originalSourceFile
      = (tm.base.metadata.getD dMatMeta).originalSourceFile ∧
    ((configureMaterial P isGltf tm w).2).writes = w.writes := by
  by_cases hd : (tm.base.metadata.getD dMatMeta).editorDone = true
  · simp [configureMaterial, hd]
  · rw [configureMaterial_eq_of_exists P isGltf tm w (fun hc => hd hc) h]
    have hx : pathExistsW (cmStage1 P isGltf tm w).2 (joinPath (dirname P.absolutePath)
        (materialFilenamePure P
          ((⟨(cmStage1 P isGltf tm w).1, tm.isMulti, tm.subMaterials⟩ : TopMaterial)).base.name
          ((⟨(cmStage1 P isGltf tm w).1, tm.isMulti, tm.subMaterials⟩ : TopMaterial)).base.id
          (P.freshId (cmStage1 P isGltf tm w).2.fresh))) = true := by
      show pathExistsW (cmStage1 P isGltf tm w).2 (joinPath (dirname P.absolutePath)
        (materialFilenamePure P (cmStage1 P isGltf tm w).1.name (cmStage1 P isGltf tm w).1.id
          (P.freshId (cmStage1 P isGltf tm w).2.fresh))) = true
      rw [cmStage1_name, cmStage1_id, (cmStage1_world P isGltf tm w).2.2]
      show ((cmStage1 P isGltf tm w).2.existing.contains _) = true
      rw [(cmStage1_world P isGltf tm w).1]
      simp_all [pathExistsW]
    refine ⟨?_, ?_, ?_⟩
    · rw [cmf_fst]
      exact cmStage1_id P isGltf tm w
    · rw [cmf_fst]
      show (editorPathMeta P ⟨(cmStage1 P isGltf tm w).1, tm.isMulti, tm.subMaterials⟩
        (P.freshId (cmStage1 P isGltf tm w).2.fresh)).originalSourceFile
        = (tm.base.metadata.getD dMatMeta).originalSourceFile
      rw [editorPathMeta_osf]
      exact cmStage1_osf P isGltf tm w
    · rw [(cmf_world_of_exists P ⟨(cmStage1 P isGltf tm w).1, tm.isMulti, tm.subMaterials⟩
        (cmStage1 P isGltf tm w).2 hx).1]
      exact (cmStage1_world P isGltf tm w).2.1

/-- Witness for `configureMaterial_exists_skips`: `mat1`'s file exists. -/
theorem configureMaterial_exists_skips_witness :
    pathExistsW worldWithMat1 (joinPath (dirname P0.absolutePath)
        (materialFilenamePure P0 mat1.base.name mat1.base.id (P0.freshId worldWithMat1.fresh))) = true ∧
    (((configureMaterial P0 false mat1 worldWithMat1).1).base.id = mat1.base.id ∧
      (((configureMaterial P0 false mat1 worldWithMat1).1).base.metadata.getD dMatMeta).originalSourceFile
        = (mat1.base.metadata.getD dMatMeta).originalSourceFile ∧
      ((configureMaterial P0 false mat1 worldWithMat1).2).writes = worldWithMat1.writes) :=
  ⟨by decide, configureMaterial_exists_skips P0 false mat1 worldWithMat1 (by decide)⟩

/-! ## C2: prefixed log lines mirrored to the standard output -/

/-- **C2.** For every message and each of the Info/Warning/Error log
types, the public log call appends exactly one line to the selected
terminal, prefixed `[INFO]: ` / `[WARN]: ` / `[ERROR]: ` followed by the
message, mirrors the unprefixed message to the matching standard output
stream, and leaves the other terminal untouched. -/
theorem console_prefixed_logs (st : ConsoleState) (m : String) (layer : Option ConsoleLayer)
    (buf : List TermWrite) (h : selectedTerminal st layer = some buf) :
    (selectedTerminal (logInfo st m layer) layer
        = some (buf ++ [TermWrite.writeln ("[INFO]: " ++ m)]) ∧
      (logInfo st m layer).stdout = st.stdout ++ [(StdStream.info, m)] ∧
      selectedTerminal (logInfo st m layer) (some (otherLayer (layer.getD ConsoleLayer.common)))
        = selectedTerminal st (some (otherLayer (layer.getD ConsoleLayer.common)))) ∧
    (selectedTerminal (logWarning st m layer) layer
        = some (buf ++ [TermWrite.writeln ("[WARN]: " ++ m)]) ∧
      (logWarning st m layer).stdout = st.stdout ++ [(StdStream.warn, m)] ∧
      selectedTerminal (logWarning st m layer) (some (otherLayer (layer.getD ConsoleLayer.common)))
        = selectedTerminal st (some (otherLayer (layer.getD ConsoleLayer.common)))) ∧
    (selectedTerminal (logError st m layer) layer
        = some (buf ++ [TermWrite.writeln ("[ERROR]: " ++ m)]) ∧
      (logError st m layer).stdout = st.stdout ++ [(StdStream.error, m)] ∧
      selectedTerminal (logError st m layer) (some (otherLayer (layer.getD ConsoleLayer.common)))
        = selectedTerminal st (some (otherLayer (layer.getD ConsoleLayer.common)))) := by
  cases hl : layer.getD ConsoleLayer.common <;>
    simp_all [logInfo, logWarning, logError, addLog, selectedTerminal, writeSelected, otherLayer]

/-- Witness for `console_prefixed_logs` on a created Common terminal. -/
theorem console_prefixed_logs_witness :
    selectedTerminal stTerm none = some [] ∧
    (selectedTerminal (logInfo stTerm "hello" none) none
        = some [TermWrite.writeln "[INFO]: hello"] ∧
      (logInfo stTerm "hello" none).stdout = [(StdStream.info, "hello")]) :=
  ⟨by decide, by
    have hspec := console_prefixed_logs stTerm "hello" none [] (by decide)
    exact ⟨hspec.1.1, hspec.1.2.1⟩⟩

/-! ## C8: default layer routing, and the no-op on missing terminals -/

/-- **C8.** A log call with the layer omitted is routed to the Common
terminal (it behaves exactly like an explicit `Common` layer), and any
log call whose target terminal has not been created yet is a complete
no-op: no terminal and no standard output stream is touched. -/
theorem console_default_layer_noop :
    (∀ (st : ConsoleState), selectedTerminal st none = st.terminalCommon) ∧
    (∀ (st : ConsoleState) (m : String),
      logInfo st m none = logInfo st m (some ConsoleLayer.common) ∧
      logWarning st m none = logWarning st m (some ConsoleLayer.common) ∧
      logError st m none = logError st m (some ConsoleLayer.common) ∧
      logRaw st m none = logRaw st m (some ConsoleLayer.common)) ∧
    (∀ (st : ConsoleState) (m : String) (layer : Option ConsoleLayer),
      selectedTerminal st layer = none →
      logInfo st m layer = st ∧ logWarning st m layer = st ∧
      logError st m layer = st ∧ logRaw st m layer = st) := by
  refine ⟨fun st => rfl, fun st m => ⟨rfl, rfl, rfl, rfl⟩, fun st m layer h => ?_⟩
  simp [logInfo, logWarning, logError, logRaw, addLog, h]

/-- Witness for `console_default_layer_noop` on a terminal-less state. -/
theorem console_default_layer_noop_witness :
    selectedTerminal stNoTerm none = none ∧
    (logInfo stNoTerm "hello" none = stNoTerm ∧ logWarning stNoTerm "hello" none = stNoTerm ∧
      logError stNoTerm "hello" none = stNoTerm ∧ logRaw stNoTerm "hello" none = stNoTerm) :=
  ⟨by decide, console_default_layer_noop.2.2 stNoTerm "hello" none (by decide)⟩

/-! ## C7: the asynchronous preview computation -/

/-- **C7.** `computePreview` triggers exactly one background worker call —
`createScenePreview` on the asset's absolute path — and immediately
returns the logo-plus-spinner placeholder, independent of the worker;
when the worker's returned path resolves, exactly the `img` node for that
path is stored in the component state as the preview image. -/
theorem computePreview_spec (absolutePath : String) :
    (computePreview absolutePath).2 = [WorkerCall.createScenePreview absolutePath] ∧
    (computePreview absolutePath).1 = meshPreviewPlaceholder ∧
    ∀ (workerPath : String) (st : HandlerState),
      computePreviewResolve workerPath st
        = { st with previewImage := some (ReactNode.img workerPath) } :=
  ⟨rfl, rfl, fun _ _ => rfl⟩

/-! ## C10: skeleton id assignment -/

theorem skelIdUsed_iff (sc : SceneObj) (i : Nat) :
    skelIdUsed sc i = true ↔ ∃ s ∈ sc.skeletons, s.id = SkelId.num (Int.ofNat i) := by
  unfold skelIdUsed getSkeletonById
  rw [List.find?_isSome]
  constructor
  · rintro ⟨s, hs, hp⟩
    exact ⟨s, hs, by simpa using hp⟩
  · rintro ⟨s, hs, hp⟩
    exact ⟨s, hs, by simpa using hp⟩

theorem mem_num_lt_foldBound (i : Nat) (l : List Skeleton) (s : Skeleton) (hs : s ∈ l)
    (hid : s.id = SkelId.num (Int.ofNat i)) :
    i < l.foldr
      (fun s acc =>
        match s.id with
        | SkelId.num n => Nat.max (n.toNat + 1) acc
        | SkelId.str _ => acc)
      0 := by
  induction l with
  | nil => cases hs
  | cons a l ih =>
    rcases List.mem_cons.mp hs with h | h
    · subst h
      simp only [List.foldr_cons, hid, Int.toNat_ofNat]
      exact Nat.lt_of_lt_of_le (Nat.lt_succ_self i) (Nat.le_max_left _ _)
    · have hi := ih h
      simp only [List.foldr_cons]
      cases ha : a.id
      · exact Nat.lt_of_lt_of_le hi (Nat.le_max_right _ _)
      · exact hi

theorem used_lt_bound (sc : SceneObj) (i : Nat) (h : skelIdUsed sc i = true) :
    i < numIdBound sc := by
  obtain ⟨s, hs, hid⟩ := (skelIdUsed_iff sc i).mp h
  exact mem_num_lt_foldBound i sc.skeletons s hs hid

theorem nextFreeAux_spec (sc : SceneObj) :
    ∀ (fuel i : Nat), numIdBound sc < fuel + i →
      skelIdUsed sc (nextFreeAux sc fuel i) = false ∧
      i ≤ nextFreeAux sc fuel i ∧
      ∀ j, i ≤ j → j < nextFreeAux sc fuel i → skelIdUsed sc j = true := by
  intro fuel
  induction fuel with
  | zero =>
    intro i hlt
    have hnotused : skelIdUsed sc i = false := by
      cases hu : skelIdUsed sc i
      · rfl
      · exact absurd (used_lt_bound sc i hu) (by omega)
    refine ⟨hnotused, Nat.le_refl i, fun j hji hjlt => ?_⟩
    simp only [nextFreeAux] at hjlt
    omega
  | succ fuel ih =>
    intro i hlt
    by_cases hu : skelIdUsed sc i = true
    · have hrec := ih (i + 1) (by omega)
      have heq : nextFreeAux sc (fuel + 1) i = nextFreeAux sc fuel (i + 1) := by
        simp [nextFreeAux, hu]
      rw [heq]
      refine ⟨hrec.1, by omega, fun j hji hjlt => ?_⟩
      rcases Nat.eq_or_lt_of_le hji with he | hl
      · rw [← he]
        exact hu
      · exact hrec.2.2 j (by omega) hjlt
    · have hfalse : skelIdUsed sc i = false := by
        cases hx : skelIdUsed sc i
        · rfl
        · exact absurd hx hu
      have heq : nextFreeAux sc (fuel + 1) i = i := by
        simp [nextFreeAux, hfalse]
      rw [heq]
      exact ⟨hfalse, Nat.le_refl i, fun j hji hjlt => by omega⟩

/-- The while loop settles on the smallest numeric id not in use by any
skeleton of the scene. -/
theorem nextFree_spec (sc : SceneObj) :
    skelIdUsed sc (nextFreeSkeletonId sc) = false ∧
    ∀ j < nextFreeSkeletonId sc, skelIdUsed sc j = true := by
  have h := nextFreeAux_spec sc (numIdBound sc + 1) 0 (by omega)
  exact ⟨h.1, fun j hj => h.2.2 j (Nat.zero_le j) hj⟩

theorem assignBones_len (P : HandlerParams) :
    ∀ (bs : List Bone) (w : World), ((assignBones P bs w).1).length = bs.length := by
  intro bs
  induction bs with
  | nil => intro w; rfl
  | cons b bs ih => intro w; simp [assignBones, ih]

theorem assignBones_get (P : HandlerParams) :
    ∀ (bs : List Bone) (w : World) (j : Nat) (b' : Bone),
      ((assignBones P bs w).1)[j]? = some b' →
      ∃ b n, bs[j]? = some b ∧ b' = boneAssigned b (P.freshId n) := by
  intro bs
  induction bs with
  | nil => intro w j b' h; simp [assignBones] at h
  | cons b bs ih =>
    intro w j b' h
    cases j with
    | zero =>
      simp only [assignBones, drawFreshId, List.getElem?_cons_zero, Option.some.injEq] at h
      exact ⟨b, w.fresh, by simp, h.symm⟩
    | succ j =>
      simp only [assignBones, drawFreshId, List.getElem?_cons_succ] at h
      obtain ⟨b0, n, hb, he⟩ := ih _ j b' h
      exact ⟨b0, n, by simpa using hb, he⟩

theorem cos_len (P : HandlerParams) (sc : SceneObj) (k : Nat) (w : World) :
    ((configureOneSkeleton P sc k w).1).skeletons.length = sc.skeletons.length := by
  unfold configureOneSkeleton
  cases h : sc.skeletons[k]? <;> simp

theorem cos_get_ne (P : HandlerParams) (sc : SceneObj) (k : Nat) (w : World) (k' : Nat)
    (hne : k' ≠ k) :
    ((configureOneSkeleton P sc k w).1).skeletons[k']? = sc.skeletons[k']? := by
  unfold configureOneSkeleton
  cases h : sc.skeletons[k]?
  · rfl
  · exact List.getElem?_set_ne (fun he => hne he.symm)

theorem cos_get_self (P : HandlerParams) (sc : SceneObj) (k : Nat) (w : World) (s : Skeleton)
    (h : sc.skeletons[k]? = some s) :
    ((configureOneSkeleton P sc k w).1).skeletons[k]?
      = some (skelAssigned s (nextFreeSkeletonId sc) ((assignBones P s.bones w).1)) := by
  unfold configureOneSkeleton
  rw [h]
  have hk : k < sc.skeletons.length := (List.getElem?_eq_some.mp h).1
  exact List.getElem?_set_eq_of_lt _ hk

theorem cs_append (P : HandlerParams) :
    ∀ (l1 l2 : List Nat) (sc : SceneObj) (w : World),
      configureSkeletons P (l1 ++ l2) sc w
        = configureSkeletons P l2 (configureSkeletons P l1 sc w).1
            (configureSkeletons P l1 sc w).2 := by
  intro l1
  induction l1 with
  | nil => intro l2 sc w; rfl
  | cons k l1 ih => intro l2 sc w; simp only [List.cons_append, configureSkeletons]; exact ih _ _ _

theorem cs_len (P : HandlerParams) :
    ∀ (ks : List Nat) (sc : SceneObj) (w : World),
      ((configureSkeletons P ks sc w).1).skeletons.length = sc.skeletons.length := by
  intro ks
  induction ks with
  | nil => intro sc w; rfl
  | cons k ks ih => intro sc w; simp only [configureSkeletons]; rw [ih, cos_len]

theorem cs_get_notin (P : HandlerParams) :
    ∀ (ks : List Nat) (sc : SceneObj) (w : World) (k0 : Nat), k0 ∉ ks →
      ((configureSkeletons P ks sc w).1).skeletons[k0]? = sc.skeletons[k0]? := by
  intro ks
  induction ks with
  | nil => intro sc w k0 h; rfl
  | cons k ks ih =>
    intro sc w k0 h
    simp only [configureSkeletons]
    rw [ih _ _ k0 (fun hc => h (List.mem_cons_of_mem k hc))]
    exact cos_get_ne P sc k w k0 (fun he => h (he ▸ List.mem_cons_self k ks))

/-- If a skeleton outside the processed indices holds the numeric id `m`,
no processed skeleton ever receives `m`: the while loop only picks free
ids. -/
theorem cs_ne_preserved (P : HandlerParams) :
    ∀ (ks : List Nat) (sc : SceneObj) (w : World) (k0 : Nat) (m : Int) (s0 : Skeleton),
      k0 ∉ ks → sc.skeletons[k0]? = some s0 → s0.id = SkelId.num m →
      ∀ k' ∈ ks, ∀ s',
        ((configureSkeletons P ks sc w).1).skeletons[k']? = some s' →
        s'.id ≠ SkelId.num m := by
  intro ks
  induction ks with
  | nil => intro sc w k0 m s0 _ _ _ k' hk'; cases hk'
  | cons k rest ih =>
    intro sc w k0 m s0 hnotin h0 hid k' hk' s' hs'
    have hk0k : k0 ≠ k := fun he => hnotin (he ▸ List.mem_cons_self k rest)
    have hk0rest : k0 ∉ rest := fun hc => hnotin (List.mem_cons_of_mem k hc)
    have h0' : ((configureOneSkeleton P sc k w).1).skeletons[k0]? = some s0 := by
      rw [cos_get_ne P sc k w k0 hk0k]; exact h0
    have hunf : configureSkeletons P (k :: rest) sc w
        = configureSkeletons P rest (configureOneSkeleton P sc k w).1
            (configureOneSkeleton P sc k w).2 := rfl
    rw [hunf] at hs'
    rcases List.mem_cons.mp hk' with he | hmem
    · subst he
      by_cases hkrest : k' ∈ rest
      · exact ih _ _ k0 m s0 hk0rest h0' hid k' hkrest s' hs'
      · rw [cs_get_notin P rest _ _ k' hkrest] at hs'
        by_cases hklen : k' < sc.skeletons.length
        · obtain ⟨sk, hsk⟩ : ∃ sk, sc.skeletons[k']? = some sk :=
            ⟨sc.skeletons[k'], List.getElem?_eq_getElem hklen⟩
          rw [cos_get_self P sc k' w sk hsk] at hs'
          have hs'eq := Option.some.inj hs'
          intro hcontra
          have hidnum : s'.id = SkelId.num (Int.ofNat (nextFreeSkeletonId sc)) := by
            rw [← hs'eq]; rfl
          rw [hidnum] at hcontra
          have hm : Int.ofNat (nextFreeSkeletonId sc) = m := by
            injection hcontra
          have hs0mem : s0 ∈ sc.skeletons := by
            have h2 := List.getElem?_eq_some.mp h0
            exact h2.2 ▸ List.getElem_mem h2.1
          have hused : skelIdUsed sc (nextFreeSkeletonId sc) = true :=
            (skelIdUsed_iff sc _).mpr ⟨s0, hs0mem, by rw [hid, hm]⟩
          rw [(nextFree_spec sc).1] at hused
          cases hused
        · have hnone : sc.skeletons[k']? = none :=
            List.getElem?_eq_none (by omega)
          unfold configureOneSkeleton at hs'
          rw [hnone] at hs'
          rw [hnone] at hs'
          cases hs'
    · exact ih _ _ k0 m s0 hk0rest h0' hid k' hmem s' hs'

/-- Helper for the pairwise-distinct part of the skeleton claim, for an
index `ka` processed before an index `kb`. -/
theorem cs_distinct_ordered (P : HandlerParams) (l1 : List Nat) (ka : Nat) (l2 : List Nat)
    (sc : SceneObj) (w : World) (hnd : (l1 ++ ka :: l2).Nodup)
    (hlt : ∀ k ∈ l1 ++ ka :: l2, k < sc.skeletons.length) (kb : Nat) (hkb : kb ∈ l2) :
    ∀ s1 s2,
      ((configureSkeletons P (l1 ++ ka :: l2) sc w).1).skeletons[ka]? = some s1 →
      ((configureSkeletons P (l1 ++ ka :: l2) sc w).1).skeletons[kb]? = some s2 →
      s1.id ≠ s2.id := by
  intro s1 s2 h1 h2
  rw [cs_append] at h1 h2
  have hstep : configureSkeletons P (ka :: l2) (configureSkeletons P l1 sc w).1
        (configureSkeletons P l1 sc w).2
      = configureSkeletons P l2
          (configureOneSkeleton P (configureSkeletons P l1 sc w).1 ka
            (configureSkeletons P l1 sc w).2).1
          (configureOneSkeleton P (configureSkeletons P l1 sc w).1 ka
            (configureSkeletons P l1 sc w).2).2 := rfl
  rw [hstep] at h1 h2
  have hka_l2 : ka ∉ l2 := by
    have h2' : (ka :: l2).Nodup := (List.nodup_append.mp hnd).2.1
    exact (List.nodup_cons.mp h2').1
  rw [cs_get_notin P l2 _ _ ka hka_l2] at h1
  have hkalt : ka < ((configureSkeletons P l1 sc w).1).skeletons.length := by
    rw [cs_len]
    exact hlt ka (by simp)
  obtain ⟨sk, hsk⟩ : ∃ sk, ((configureSkeletons P l1 sc w).1).skeletons[ka]? = some sk :=
    ⟨((configureSkeletons P l1 sc w).1).skeletons[ka], List.getElem?_eq_getElem hkalt⟩
  have hself := cos_get_self P (configureSkeletons P l1 sc w).1 ka
    (configureSkeletons P l1 sc w).2 sk hsk
  have hs1pre := h1
  rw [hself] at h1
  have hs1 : s1 = skelAssigned sk (nextFreeSkeletonId (configureSkeletons P l1 sc w).1)
      ((assignBones P sk.bones (configureSkeletons P l1 sc w).2).1) := (Option.some.inj h1).symm
  have hid1 : s1.id
      = SkelId.num (Int.ofNat (nextFreeSkeletonId (configureSkeletons P l1 sc w).1)) := by
    rw [hs1]; rfl
  have hpres := cs_ne_preserved P l2 _ _ ka
    (Int.ofNat (nextFreeSkeletonId (configureSkeletons P l1 sc w).1)) s1 hka_l2 hs1pre hid1
    kb hkb s2 h2
  rw [hid1]
  exact fun he => hpres he.symm

/-- **C10.** After `_configureSkeletons`, (a) each processed skeleton is
assigned the smallest non-negative numeric id not in use by any skeleton
of the scene at the moment of its assignment, (b) the processed skeletons
end up with pairwise distinct ids, and (c) every bone of a processed
skeleton carries a freshly drawn random id with `metadata.originalId`
equal to that newly assigned id — not to the id the bone had before. -/
theorem configureSkeletons_spec (P : HandlerParams) (ks : List Nat) (sc : SceneObj) (w : World)
    (hnd : ks.Nodup) (hlt : ∀ k ∈ ks, k < sc.skeletons.length) :
    (∀ (sc' : SceneObj) (w' : World) (k : Nat) (s s' : Skeleton),
      sc'.skeletons[k]? = some s →
      ((configureOneSkeleton P sc' k w').1).skeletons[k]? = some s' →
      ∃ i : Nat, s'.id = SkelId.num (Int.ofNat i) ∧ skelIdUsed sc' i = false ∧
        ∀ j < i, skelIdUsed sc' j = true) ∧
    (∀ k1 ∈ ks, ∀ k2 ∈ ks, k1 ≠ k2 →
      ∀ s1 s2, ((configureSkeletons P ks sc w).1).skeletons[k1]? = some s1 →
        ((configureSkeletons P ks sc w).1).skeletons[k2]? = some s2 →
        s1.id ≠ s2.id) ∧
    (∀ k ∈ ks, ∀ s s', sc.skeletons[k]? = some s →
      ((configureSkeletons P ks sc w).1).skeletons[k]? = some s' →
      s'.bones.length = s.bones.length ∧
      ∀ (j : Nat) (b' : Bone), s'.bones[j]? = some b' →
        ∃ (b : Bone) (n : Nat), s.bones[j]? = some b ∧ b' = boneAssigned b (P.freshId n) ∧
          (∃ md', b'.metadata = some md' ∧ md'.originalId = some b'.id ∧
            (b'.id ≠ b.id → md'.originalId ≠ some b.id))) := by
  refine ⟨?_, ?_, ?_⟩
  · intro sc' w' k s s' hs hs'
    rw [cos_get_self P sc' k w' s hs] at hs'
    have he := (Option.some.inj hs').symm
    refine ⟨nextFreeSkeletonId sc', by rw [he]; rfl, (nextFree_spec sc').1,
      fun j hj => (nextFree_spec sc').2 j hj⟩
  · intro k1 hk1 k2 hk2 hne s1 s2 h1 h2
    obtain ⟨l1, l2, rfl⟩ := List.append_of_mem hk1
    rcases List.mem_append.mp hk2 with hin1 | hin2
    · obtain ⟨a, b, hab⟩ := List.append_of_mem hin1
      have hks : l1 ++ k1 :: l2 = a ++ k2 :: (b ++ k1 :: l2) := by
        rw [hab]; simp
      rw [hks] at h1 h2 hnd hlt
      have hmem : k1 ∈ b ++ k1 :: l2 := by simp
      exact fun he =>
        (cs_distinct_ordered P a k2 (b ++ k1 :: l2) sc w hnd hlt k1 hmem s2 s1 h2 h1) he.symm
    · rcases List.mem_cons.mp hin2 with he | hin2'
      · exact absurd he.symm hne
      · exact cs_distinct_ordered P l1 k1 l2 sc w hnd hlt k2 hin2' s1 s2 h1 h2
  · intro k hk s s' hs hs'
    obtain ⟨l1, l2, rfl⟩ := List.append_of_mem hk
    have hk_l1 : k ∉ l1 := by
      intro hc
      have := (List.nodup_append.mp hnd).2.2
      exact this hc (List.mem_cons_self k l2)
    have hk_l2 : k ∉ l2 := by
      have h2' : (k :: l2).Nodup := (List.nodup_append.mp hnd).2.1
      exact (List.nodup_cons.mp h2').1
    rw [cs_append] at hs'
    have hstep : configureSkeletons P (k :: l2) (configureSkeletons P l1 sc w).1
          (configureSkeletons P l1 sc w).2
        = configureSkeletons P l2
            (configureOneSkeleton P (configureSkeletons P l1 sc w).1 k
              (configureSkeletons P l1 sc w).2).1
            (configureOneSkeleton P (configureSkeletons P l1 sc w).1 k
              (configureSkeletons P l1 sc w).2).2 := rfl
    rw [hstep, cs_get_notin P l2 _ _ k hk_l2] at hs'
    have hsA : ((configureSkeletons P l1 sc w).1).skeletons[k]? = some s := by
      rw [cs_get_notin P l1 sc w k hk_l1]; exact hs
    rw [cos_get_self P _ k _ s hsA] at hs'
    have he := (Option.some.inj hs').symm
    have hbones : s'.bones
        = (assignBones P s.bones (configureSkeletons P l1 sc w).2).1 := by
      rw [he]; rfl
    constructor
    · rw [hbones, assignBones_len]
    · intro j b' hb'
      rw [hbones] at hb'
      obtain ⟨b, n, hbj, hbe⟩ := assignBones_get P s.bones _ j b' hb'
      refine ⟨b, n, hbj, hbe, ?_⟩
      refine ⟨{ b.metadata.getD dBoneMeta with originalId := some (P.freshId n) },
        by rw [hbe]; rfl, ?_, ?_⟩
      · rw [hbe]; rfl
      · intro hne hcontra
        have hid' : b'.id = P.freshId n := by rw [hbe]; rfl
        have : some (P.freshId n) = some b.id := by simpa using hcontra
        rw [hid'] at hne
        exact hne (Option.some.inj this)

/-- Witness for `configureSkeletons_spec`: on `scene0` the two imported
skeletons receive the distinct numeric ids `0` and `1`. -/
theorem configureSkeletons_spec_witness :
    ([0, 1] : List Nat).Nodup ∧
    0 < scene0.skeletons.length ∧ 1 < scene0.skeletons.length ∧
    (configureSkeletons P0 [0, 1] scene0 emptyWorld).1.skeletons[0]? = some skelRes0 ∧
    (configureSkeletons P0 [0, 1] scene0 emptyWorld).1.skeletons[1]? = some skelRes1 ∧
    skelRes0.id ≠ skelRes1.id :=
  ⟨by decide, by decide, by decide, by decide, by decide,
    (configureSkeletons_spec P0 [0, 1] scene0 emptyWorld (by decide)
      (by decide)).2.1 0 (by decide) 1 (by decide) (by decide) skelRes0 skelRes1
      (by decide) (by decide)⟩

/-! ## C5: which fields the configuration pass may touch -/

theorem texFrame_gltf (P : HandlerParams) (t : TextureObj) :
    texFrame (configureTextureGltf P t) = texFrame t := by
  cases hm : t.mimeType with
  | none => cases hu : t.url <;> simp only [configureTextureGltf, texFrame, hm, hu]
  | some mt =>
    by_cases he : extname t.name ≠ P.extFromMime mt <;> cases hu : t.url <;>
      simp only [configureTextureGltf, texFrame, hm, hu, if_pos, if_neg, he,
        not_true, not_false_iff, ite_true, ite_false] <;>
      simp [he]

theorem texFrame_std (P : HandlerParams) (t : TextureObj) :
    texFrame (configureTextureStd P t) = texFrame t := by
  cases hu : t.url <;> simp only [configureTextureStd, texFrame, hu]

theorem matFrame_cmt (P : HandlerParams) (g : Bool) (m : MaterialObj) (w : World) :
    matFrame ((configureMaterialTextures P g m w).1) = matFrame m := by
  rw [cmt_fst]
  unfold matFrame
  simp only [List.map_map, Prod.mk.injEq, true_and]
  apply List.map_congr_left
  intro t _
  by_cases hs : texSelected t <;> cases g <;>
    simp [hs, texFrame_gltf, texFrame_std, Function.comp]

theorem cmf_isMulti (P : HandlerParams) (tm : TopMaterial) (w : World) :
    (createMaterialFile P tm w).1.isMulti = tm.isMulti := by
  rw [cmf_fst]

theorem cmf_subs (P : HandlerParams) (tm : TopMaterial) (w : World) :
    (createMaterialFile P tm w).1.subMaterials = tm.subMaterials := by
  rw [cmf_fst]

theorem matFrame_cmfBase (P : HandlerParams) (tm : TopMaterial) (w : World) :
    matFrame ((createMaterialFile P tm w).1.base) = matFrame tm.base := by
  rw [cmf_fst]
  rfl

theorem matFrame_subRec (P : HandlerParams) (m : MaterialObj) :
    matFrame (subMatRecorded P m) = matFrame m := rfl

theorem matFrame_topRec (P : HandlerParams) (tm : TopMaterial) :
    matFrame (topMatRecorded P tm) = matFrame tm.base := rfl

theorem matFrame_idSet (m : MaterialObj) (i : Option String) :
    matFrame { m with id := i } = matFrame m := rfl

theorem subMats_frame_base (P : HandlerParams) (g : Bool) :
    ∀ (pending done : List (Option MaterialObj)) (base : MaterialObj) (w : World),
      matFrame ((configureSubMaterials P g pending done base w).1) = matFrame base := by
  intro pending
  induction pending with
  | nil => intro done base w; rfl
  | cons hd tl ih =>
    intro done base w
    cases hd with
    | none => rfl
    | some m =>
      simp only [configureSubMaterials]
      split <;> rw [ih] <;> exact matFrame_cmfBase P _ _

theorem subMats_frame_subs (P : HandlerParams) (g : Bool) :
    ∀ (pending done : List (Option MaterialObj)) (base : MaterialObj) (w : World),
      ((configureSubMaterials P g pending done base w).2.1).map (Option.map matFrame)
        = (done ++ pending).map (Option.map matFrame) := by
  intro pending
  induction pending with
  | nil => intro done base w; simp [configureSubMaterials]
  | cons hd tl ih =>
    intro done base w
    cases hd with
    | none => simp [configureSubMaterials]
    | some m =>
      simp only [configureSubMaterials]
      split <;> rw [ih] <;>
        simp [List.map_append, matFrame_idSet, matFrame_subRec, matFrame_cmt]

theorem matFrame_cmStage1 (P : HandlerParams) (g : Bool) (tm : TopMaterial) (w : World) :
    matFrame ((cmStage1 P g tm w).1) = matFrame tm.base := by
  unfold cmStage1
  split
  · exact matFrame_cmt P g (doneBase tm) w
  · rfl

theorem topMatFrame_cm (P : HandlerParams) (g : Bool) (tm : TopMaterial) (w : World) :
    topMatFrame ((configureMaterial P g tm w).1) = topMatFrame tm := by
  by_cases hd : (tm.base.metadata.getD dMatMeta).editorDone = true
  · simp [configureMaterial, hd]
  · simp only [configureMaterial]
    rw [if_neg hd]
    repeat' split
    all_goals
      simp_all [topMatFrame, matFrame_cmfBase, cmf_isMulti, cmf_subs, matFrame_cmStage1,
        matFrame_topRec, matFrame_idSet, subMats_frame_base, subMats_frame_subs]

theorem meshFrame_one (P : HandlerParams) (pick : Option Vec3) (g : Bool) (m : MeshObj)
    (w : World) :
    meshFrame ((configureOneMesh P pick g m w).1) = meshFrame m := by
  by_cases hp : (!m.hasParent && pick.isSome) = true <;>
    cases hmat : m.material <;> cases hmc : m.isMeshClass <;> cases hg : m.geometry <;>
      simp [configureOneMesh, hp, hmat, hmc, hg, meshFrame, topMatFrame_cm]

theorem meshPos_one (P : HandlerParams) (pick : Option Vec3) (g : Bool) (m : MeshObj)
    (w : World) :
    (configureOneMesh P pick g m w).1.position
      = (if !m.hasParent && pick.isSome then m.position.add (pick.getD ⟨0, 0, 0⟩)
         else m.position) := by
  by_cases hp : (!m.hasParent && pick.isSome) = true <;>
    cases hmat : m.material <;> cases hmc : m.isMeshClass <;> cases hg : m.geometry <;>
      simp [configureOneMesh, hp, hmat, hmc, hg]

theorem configureMeshes_frame (P : HandlerParams) (pick : Option Vec3) (g : Bool) :
    ∀ (ms : List MeshObj) (w : World),
      ((configureMeshes P pick g ms w).1).map meshFrame = ms.map meshFrame := by
  intro ms
  induction ms with
  | nil => intro w; rfl
  | cons m ms ih =>
    intro w
    simp only [configureMeshes, List.map_cons]
    rw [ih, meshFrame_one]

theorem configureMeshes_pos (P : HandlerParams) (pick : Option Vec3) (g : Bool) :
    ∀ (ms : List MeshObj) (w : World),
      ((configureMeshes P pick g ms w).1).map MeshObj.position
        = ms.map (fun m =>
            if !m.hasParent && pick.isSome then m.position.add (pick.getD ⟨0, 0, 0⟩)
            else m.position) := by
  intro ms
  induction ms with
  | nil => intro w; rfl
  | cons m ms ih =>
    intro w
    simp only [configureMeshes, List.map_cons]
    rw [ih, meshPos_one]

theorem tnFrame_one (P : HandlerParams) (pick : Option Vec3) (tn : TransformNodeObj)
    (w : World) :
    tnFrame ((configureOneTransformNode P pick tn w).1) = tnFrame tn := by
  cases hpar : tn.hasParent <;> cases hpick : pick <;>
    simp [configureOneTransformNode, tnFrame, hpar, hpick]

theorem tnPos_one (P : HandlerParams) (pick : Option Vec3) (tn : TransformNodeObj)
    (w : World) :
    (configureOneTransformNode P pick tn w).1.position
      = (if !tn.hasParent && pick.isSome then tn.position.add (pick.getD ⟨0, 0, 0⟩)
         else tn.position) := by
  cases hpar : tn.hasParent <;> cases hpick : pick <;>
    simp [configureOneTransformNode, hpar, hpick]

theorem configureTransformNodes_frame (P : HandlerParams) (pick : Option Vec3) :
    ∀ (tns : List TransformNodeObj) (w : World),
      ((configureTransformNodes P pick tns w).1).map tnFrame = tns.map tnFrame := by
  intro tns
  induction tns with
  | nil => intro w; rfl
  | cons tn tns ih =>
    intro w
    simp only [configureTransformNodes, List.map_cons]
    rw [ih, tnFrame_one]

theorem configureTransformNodes_pos (P : HandlerParams) (pick : Option Vec3) :
    ∀ (tns : List TransformNodeObj) (w : World),
      ((configureTransformNodes P pick tns w).1).map TransformNodeObj.position
        = tns.map (fun tn =>
            if !tn.hasParent && pick.isSome then tn.position.add (pick.getD ⟨0, 0, 0⟩)
            else tn.position) := by
  intro tns
  induction tns with
  | nil => intro w; rfl
  | cons tn tns ih =>
    intro w
    simp only [configureTransformNodes, List.map_cons]
    rw [ih, tnPos_one]

theorem boneRest_assign (P : HandlerParams) :
    ∀ (bs : List Bone) (w : World),
      ((assignBones P bs w).1).map Bone.rest = bs.map Bone.rest := by
  intro bs
  induction bs with
  | nil => intro w; rfl
  | cons b bs ih =>
    intro w
    simp only [assignBones, List.map_cons]
    rw [ih]
    rfl

theorem skelFrame_cos (P : HandlerParams) (sc : SceneObj) (k : Nat) (w : World) :
    ((configureOneSkeleton P sc k w).1).skeletons.map skelFrame
      = sc.skeletons.map skelFrame := by
  unfold configureOneSkeleton
  cases h : sc.skeletons[k]? with
  | none => rfl
  | some s =>
    simp only []
    rw [List.map_set]
    apply List.ext_getElem?
    intro i
    by_cases hik : i = k
    · subst hik
      have hk : i < sc.skeletons.length := (List.getElem?_eq_some.mp h).1
      rw [List.getElem?_set_eq_of_lt _ (by simpa using hk), List.getElem?_map, h]
      have : skelFrame (skelAssigned s (nextFreeSkeletonId sc) ((assignBones P s.bones w).1))
          = skelFrame s := by
        unfold skelFrame skelAssigned
        simp [boneRest_assign]
      rw [this]
      rfl
    · rw [List.getElem?_set_ne (fun he => hik he.symm)]

theorem skelFrame_cs (P : HandlerParams) :
    ∀ (ks : List Nat) (sc : SceneObj) (w : World),
      ((configureSkeletons P ks sc w).1).skeletons.map skelFrame
        = sc.skeletons.map skelFrame := by
  intro ks
  induction ks with
  | nil => intro sc w; rfl
  | cons k ks ih =>
    intro sc w
    simp only [configureSkeletons]
    rw [ih, skelFrame_cos]

theorem psRest_cps (P : HandlerParams) :
    ∀ (ps : List ParticleSystemObj) (w : World),
      ((configureParticleSystems P ps w).1).map ParticleSystemObj.rest
        = ps.map ParticleSystemObj.rest := by
  intro ps
  induction ps with
  | nil => intro w; rfl
  | cons p ps ih =>
    intro w
    simp only [configureParticleSystems, List.map_cons]
    rw [ih]

/-- **C5 (counterexample).** The claim that the configuration pass leaves
all fields but id, name and metadata unchanged fails on the code: a
parentless transform node dropped on a picked point is translated in
place, a texture's `url` is rewritten to its new relative path, and a
mesh geometry's id is regenerated. -/
theorem configure_pass_fields_cex :
    ((configureTransformNodes P0 (some ⟨1, 2, 3⟩) [tn0] emptyWorld).1.getD 0 dTN).position
      ≠ tn0.position ∧
    ((configureMaterialTextures P0 false matTex emptyWorld).1.textures.getD 0 dTex).url
      ≠ tex0.url ∧
    ((configureOneMesh P0 none false mesh0 emptyWorld).1.geometry.map GeometryObj.id)
      ≠ mesh0.geometry.map GeometryObj.id :=
  ⟨by decide, by decide, by decide⟩

/-- **C5 (amended).** The configuration pass run after import modifies
only the entities' id, name and metadata fields, a texture's `url`, and a
mesh geometry's id; in addition, parentless meshes and transform nodes
are translated in place by the picked point when the drop produced one.
All remaining fields — captured by the frame projections — are unchanged,
and positions change exactly by the picked-point translation rule. -/
theorem configure_pass_frame :
    (∀ (P : HandlerParams) (g : Bool) (m : MaterialObj) (w : World),
      matFrame ((configureMaterialTextures P g m w).1) = matFrame m) ∧
    (∀ (P : HandlerParams) (g : Bool) (tm : TopMaterial) (w : World),
      topMatFrame ((configureMaterial P g tm w).1) = topMatFrame tm) ∧
    (∀ (P : HandlerParams) (pick : Option Vec3) (g : Bool) (ms : List MeshObj) (w : World),
      ((configureMeshes P pick g ms w).1).map meshFrame = ms.map meshFrame ∧
      ((configureMeshes P pick g ms w).1).map MeshObj.position
        = ms.map (fun m =>
            if !m.hasParent && pick.isSome then m.position.add (pick.getD ⟨0, 0, 0⟩)
            else m.position)) ∧
    (∀ (P : HandlerParams) (pick : Option Vec3) (tns : List TransformNodeObj) (w : World),
      ((configureTransformNodes P pick tns w).1).map tnFrame = tns.map tnFrame ∧
      ((configureTransformNodes P pick tns w).1).map TransformNodeObj.position
        = tns.map (fun tn =>
            if !tn.hasParent && pick.isSome then tn.position.add (pick.getD ⟨0, 0, 0⟩)
            else tn.position)) ∧
    (∀ (P : HandlerParams) (ks : List Nat) (sc : SceneObj) (w : World),
      ((configureSkeletons P ks sc w).1).skeletons.map skelFrame
        = sc.skeletons.map skelFrame) ∧
    (∀ (P : HandlerParams) (ps : List ParticleSystemObj) (w : World),
      ((configureParticleSystems P ps w).1).map ParticleSystemObj.rest
        = ps.map ParticleSystemObj.rest) :=
  ⟨fun P g m w => matFrame_cmt P g m w,
   fun P g tm w => topMatFrame_cm P g tm w,
   fun P pick g ms w => ⟨configureMeshes_frame P pick g ms w, configureMeshes_pos P pick g ms w⟩,
   fun P pick tns w =>
     ⟨configureTransformNodes_frame P pick tns w, configureTransformNodes_pos P pick tns w⟩,
   fun P ks sc w => skelFrame_cs P ks sc w,
   fun P ps w => psRest_cps P ps w⟩

end EditorProof
